import Mathlib

/-!
# Verification of the ShortcutAI Windows native shim

Shallow embedding of `apps/windows/src-tauri/src/main.rs`: the data model
(`Action`, `SetupPayload`, `SetupFile`, `ExecutionLogEntry`, `AppState`), the
JSON-file helpers (`read_json`, `write_json`), the keyring-backed credential
storage, the global-shortcut registration state machine, the clipboard capture
routine and the Tauri commands built from them.

External effects (filesystem, Windows Credential Manager, the OS global
shortcut manager, the clipboard, the foreground application's reaction to a
simulated Ctrl+C) are modelled as explicit state threaded through each
operation, with Boolean success flags injecting the failure of each fallible
OS call exactly where the source consults such a result.
-/

namespace ShortcutAI

/-- `Action` struct from the source: one user-defined AI action. -/
structure Action where
  id : String
  name : String
  prompt : String
  created_at : String
  last_used_at : Option String
deriving Repr, DecidableEq

/-- `SetupPayload` struct: the setup record exchanged with the frontend,
including the API key. -/
structure SetupPayload where
  provider : String
  api_key : String
  actions : List Action
  default_action_id : Option String
  setup_completed_at : String
deriving Repr, DecidableEq

/-- `SetupFile` struct: the record persisted in `setup.json`; `api_key` is an
`Option` kept only as a legacy field for the keyring migration and is skipped
by serde when `None`. -/
structure SetupFile where
  provider : String
  actions : List Action
  default_action_id : Option String
  setup_completed_at : String
  api_key : Option String
deriving Repr, DecidableEq

/-- `ExecutionLogEntry` struct: one record of the execution-log history. -/
structure ExecutionLogEntry where
  id : String
  timestamp : String
  action_id : String
  action_name : String
  prompt : String
  provider : Option String
  model_id : Option String
  duration_ms : Float
  input_length : Nat
  output_length : Nat
  success : Bool
  error_message : Option String
deriving Repr

/-- The names of the mutex-protected fields of the shared `AppState` struct
(`logs : Mutex<Vec<ExecutionLogEntry>>` and
`active_shortcut : Mutex<Option<String>>`), transcribed from the source. -/
def appStateMutexProtectedFields : List String :=
  ["logs", "active_shortcut"]

/-- A JSON file on disk as `read_json` can encounter it: absent, present but
unreadable (`fs::read_to_string` fails), present but unparseable
(`serde_json::from_str` fails), or present with parsed contents `value`. -/
inductive FsFile (α : Type) where
  | missing
  | unreadable
  | malformed
  | good (value : α)
deriving Repr, DecidableEq

/-- `read_json`: `Ok(None)` when the file does not exist, a string error when
it exists but cannot be read or parsed, `Ok(Some v)` on success. -/
def read_json {α : Type} : FsFile α → Except String (Option α)
  | FsFile.missing => Except.ok none
  | FsFile.unreadable => Except.error "Failed to read JSON file"
  | FsFile.malformed => Except.error "Failed to parse JSON file"
  | FsFile.good v => Except.ok (some v)

/-- `write_json`: on success the file holds exactly the serialized value; on
failure (injected via `writeOk`) a string error is returned and the model keeps
the previous file contents. -/
def write_json {α : Type} (file : FsFile α) (value : α) (writeOk : Bool) :
    Except String Unit × FsFile α :=
  if writeOk then (Except.ok (), FsFile.good value)
  else (Except.error "Failed to write JSON file", file)

/-- The push-then-trim step of `append_execution_log`: push `entry`, then if
the length exceeds 500 drain the first `len - 500` elements. -/
def appendTrim (logs : List ExecutionLogEntry) (entry : ExecutionLogEntry) :
    List ExecutionLogEntry :=
  let pushed := logs ++ [entry]
  if pushed.length > 500 then pushed.drop (pushed.length - 500) else pushed

/-- `append_execution_log` command: lock the log state, push and trim, then
persist the updated list; returns the updated list on success.  Result is
(returned value, new in-memory log list, new contents of
`execution-logs.json`). -/
def append_execution_log (logs : List ExecutionLogEntry)
    (entry : ExecutionLogEntry) (file : FsFile (List ExecutionLogEntry))
    (writeOk : Bool) :
    Except String (List ExecutionLogEntry) × List ExecutionLogEntry ×
      FsFile (List ExecutionLogEntry) :=
  let updated := appendTrim logs entry
  match write_json file updated writeOk with
  | (Except.ok (), file') => (Except.ok updated, updated, file')
  | (Except.error e, file') => (Except.error e, updated, file')

theorem drop_append_of_le_len {α : Type} {l₁ l₂ : List α} {n : Nat}
    (h : n ≤ l₁.length) : (l₁ ++ l₂).drop n = l₁.drop n ++ l₂ := by
  induction l₁ generalizing n with
  | nil =>
    simp at h
    subst h
    simp
  | cons a t ih =>
    cases n with
    | zero => simp
    | succ m =>
      simp only [List.cons_append, List.drop_succ_cons]
      exact ih (Nat.le_of_succ_le_succ h)

/-- C1: `append_execution_log` caps the log at 500 entries — the result has at
most 500 entries, equals the pushed list with exactly the excess oldest
entries dropped from the front (so relative order is preserved: it is a suffix
of the pushed list), and ends with the new entry. -/
theorem append_execution_log_caps_at_500 (logs : List ExecutionLogEntry)
    (entry : ExecutionLogEntry) :
    (appendTrim logs entry).length ≤ 500 ∧
    appendTrim logs entry = (logs ++ [entry]).drop (logs.length + 1 - 500) ∧
    (appendTrim logs entry) <:+ (logs ++ [entry]) ∧
    (appendTrim logs entry).getLast? = some entry := by
  have hlen : (logs ++ [entry]).length = logs.length + 1 := by simp
  unfold appendTrim
  by_cases h : (logs ++ [entry]).length > 500
  · simp only [h, if_pos]
    refine ⟨?_, ?_, ?_, ?_⟩
    · rw [List.length_drop]; omega
    · rw [hlen]
    · exact List.drop_suffix _ _
    · have hle : (logs ++ [entry]).length - 500 ≤ logs.length := by omega
      rw [drop_append_of_le_len hle]
      exact List.getLast?_concat _
  · simp only [h, if_neg, not_false_iff]
    have h0 : logs.length + 1 - 500 = 0 := by omega
    refine ⟨by omega, by rw [h0, List.drop_zero], List.suffix_refl _, ?_⟩
    exact List.getLast?_concat _

/-- A sample log entry used to instantiate theorems at concrete inputs. -/
def sampleEntry : ExecutionLogEntry :=
  { id := "log-1", timestamp := "2024-01-01T00:00:00Z", action_id := "a1",
    action_name := "Summarize", prompt := "Summarize this", provider := none,
    model_id := none, duration_ms := 0.0, input_length := 3,
    output_length := 4, success := true, error_message := none }

/-- C4: a successful `append_execution_log` returns exactly the pushed-and-
trimmed list, leaves the in-memory state equal to it, and persists that same
list to `execution-logs.json`, so memory and file agree after success. -/
theorem append_execution_log_persists (logs : List ExecutionLogEntry)
    (entry : ExecutionLogEntry) (file : FsFile (List ExecutionLogEntry))
    (writeOk : Bool) (returned : List ExecutionLogEntry)
    (h : (append_execution_log logs entry file writeOk).1 =
      Except.ok returned) :
    returned = appendTrim logs entry ∧
    (append_execution_log logs entry file writeOk).2.1 = returned ∧
    (append_execution_log logs entry file writeOk).2.2 =
      FsFile.good returned := by
  cases writeOk with
  | false => simp [append_execution_log, write_json] at h
  | true =>
    simp only [append_execution_log, write_json, if_pos] at h ⊢
    simp at h
    subst h
    exact ⟨rfl, rfl, rfl⟩

/-- Witness for C4 at a concrete entry and empty initial state. -/
theorem append_execution_log_persists_witness :
    [sampleEntry] = appendTrim [] sampleEntry ∧
    (append_execution_log [] sampleEntry FsFile.missing true).2.1 =
      [sampleEntry] ∧
    (append_execution_log [] sampleEntry FsFile.missing true).2.2 =
      FsFile.good [sampleEntry] :=
  append_execution_log_persists [] sampleEntry FsFile.missing true
    [sampleEntry] rfl

/-- `save_api_key_secure`: `set_password` on the `ShortcutAI`/`api_key`
keyring entry; on success the vault holds exactly the given key, a keyring
failure (injected via `saveOk`) is mapped to a string error. -/
def save_api_key_secure (vault : Option String) (api_key : String)
    (saveOk : Bool) : Except String Unit × Option String :=
  if saveOk then (Except.ok (), some api_key)
  else (Except.error "Failed to save API key to keyring", vault)

/-- `load_api_key_secure`: `get_password`; a missing entry (`NoEntry`) is
`Ok(None)`, any other keyring failure (injected via `loadOk`) is a string
error. -/
def load_api_key_secure (vault : Option String) (loadOk : Bool) :
    Except String (Option String) :=
  if loadOk then Except.ok vault
  else Except.error "Failed to load API key from keyring"

/-- `load_setup` command: read `setup.json`; on a parsed file with a non-empty
legacy `api_key`, save that key to the keyring and rewrite the file without
it; then read the API key back from the keyring into the returned payload.
Result is (returned value, new contents of `setup.json`, new vault state). -/
def load_setup (file : FsFile SetupFile) (vault : Option String)
    (saveOk writeOk loadOk : Bool) :
    Except String (Option SetupPayload) × FsFile SetupFile × Option String :=
  match read_json file with
  | Except.error e => (Except.error e, file, vault)
  | Except.ok none => (Except.ok none, file, vault)
  | Except.ok (some setup_file) =>
    let migrate : Except String Unit × FsFile SetupFile × Option String :=
      match setup_file.api_key with
      | some legacy =>
        if legacy = "" then (Except.ok (), file, vault)
        else
          match save_api_key_secure vault legacy saveOk with
          | (Except.error e, vault') => (Except.error e, file, vault')
          | (Except.ok (), vault') =>
            let migrated : SetupFile :=
              { provider := setup_file.provider,
                actions := setup_file.actions,
                default_action_id := setup_file.default_action_id,
                setup_completed_at := setup_file.setup_completed_at,
                api_key := none }
            match write_json file migrated writeOk with
            | (Except.ok (), file') => (Except.ok (), file', vault')
            | (Except.error e, file') => (Except.error e, file', vault')
      | none => (Except.ok (), file, vault)
    match migrate with
    | (Except.error e, file', vault') => (Except.error e, file', vault')
    | (Except.ok (), file', vault') =>
      match load_api_key_secure vault' loadOk with
      | Except.error e => (Except.error e, file', vault')
      | Except.ok key? =>
        (Except.ok (some
          { provider := setup_file.provider, api_key := key?.getD "",
            actions := setup_file.actions,
            default_action_id := setup_file.default_action_id,
            setup_completed_at := setup_file.setup_completed_at }),
         file', vault')

/-- C2: when the parsed setup file carries a non-empty legacy `api_key`,
`load_setup` saves that key to the vault, rewrites the file with only the
`api_key` field removed, and returns a payload whose `api_key` is the value
read back from the vault; when the legacy field is absent or empty the file is
not rewritten. -/
theorem load_setup_migrates_legacy_key (sf : SetupFile)
    (vault : Option String) :
    (∀ k, sf.api_key = some k → k ≠ "" →
      load_setup (FsFile.good sf) vault true true true =
        (Except.ok (some
          { provider := sf.provider, api_key := k, actions := sf.actions,
            default_action_id := sf.default_action_id,
            setup_completed_at := sf.setup_completed_at }),
         FsFile.good { sf with api_key := none }, some k)) ∧
    ((sf.api_key = none ∨ sf.api_key = some "") →
      ∀ saveOk writeOk loadOk,
        (load_setup (FsFile.good sf) vault saveOk writeOk loadOk).2.1 =
          FsFile.good sf) := by
  constructor
  · intro k hk hne
    simp [load_setup, read_json, hk, hne, save_api_key_secure, write_json,
      load_api_key_secure]
  · rintro (hk | hk) saveOk writeOk loadOk <;>
      simp [load_setup, read_json, hk, load_api_key_secure] <;>
      cases loadOk <;> simp

/-- A sample legacy setup file used to instantiate C2 concretely. -/
def legacySetupFile : SetupFile :=
  { provider := "openai",
    actions := [{ id := "a1", name := "Fix", prompt := "Fix this",
                  created_at := "2024-01-01", last_used_at := none }],
    default_action_id := some "a1",
    setup_completed_at := "2024-01-02",
    api_key := some "sk-legacy" }

/-- Witness for C2: the migration runs on a concrete legacy setup file. -/
theorem load_setup_migrates_legacy_key_witness :
    load_setup (FsFile.good legacySetupFile) none true true true =
      (Except.ok (some
        { provider := legacySetupFile.provider, api_key := "sk-legacy",
          actions := legacySetupFile.actions,
          default_action_id := legacySetupFile.default_action_id,
          setup_completed_at := legacySetupFile.setup_completed_at }),
       FsFile.good { legacySetupFile with api_key := none },
       some "sk-legacy") :=
  (load_setup_migrates_legacy_key legacySetupFile none).1 "sk-legacy" rfl
    (by decide)

/-- `save_setup` command: save the payload's API key to the keyring, then
write `setup.json` with the remaining fields and `api_key: None`.  Result is
(returned value, new contents of `setup.json`, new vault state). -/
def save_setup (setup : SetupPayload) (file : FsFile SetupFile)
    (vault : Option String) (saveOk writeOk : Bool) :
    Except String Unit × FsFile SetupFile × Option String :=
  match save_api_key_secure vault setup.api_key saveOk with
  | (Except.error e, vault') => (Except.error e, file, vault')
  | (Except.ok (), vault') =>
    let setup_file : SetupFile :=
      { provider := setup.provider, actions := setup.actions,
        default_action_id := setup.default_action_id,
        setup_completed_at := setup.setup_completed_at,
        api_key := none }
    match write_json file setup_file writeOk with
    | (Except.ok (), file') => (Except.ok (), file', vault')
    | (Except.error e, file') => (Except.error e, file', vault')

/-- serde field names of a serialized `SetupFile` (camelCase rename), with
`apiKey` omitted when the field is `None` per
`skip_serializing_if = "Option::is_none"`. -/
def setupFileSerializedFields (sf : SetupFile) : List String :=
  ["provider", "actions", "defaultActionId", "setupCompletedAt"] ++
    (match sf.api_key with
     | some _ => ["apiKey"]
     | none => [])

/-- C3: `save_setup` stores the payload's API key only in the vault — the
vault ends holding exactly that key, the record written to `setup.json`
carries the payload's `provider`, `actions`, `default_action_id` and
`setup_completed_at` with `api_key = None`, and the serialized record has no
`apiKey` field at all. -/
theorem save_setup_keeps_key_out_of_json (setup : SetupPayload)
    (file : FsFile SetupFile) (vault : Option String) :
    save_setup setup file vault true true =
      (Except.ok (),
       FsFile.good
         { provider := setup.provider, actions := setup.actions,
           default_action_id := setup.default_action_id,
           setup_completed_at := setup.setup_completed_at, api_key := none },
       some setup.api_key) ∧
    "apiKey" ∉ setupFileSerializedFields
      { provider := setup.provider, actions := setup.actions,
        default_action_id := setup.default_action_id,
        setup_completed_at := setup.setup_completed_at, api_key := none } := by
  refine ⟨rfl, ?_⟩
  simp [setupFileSerializedFields]

/-- The shortcut-registration state: the set of shortcuts currently registered
with the OS global-shortcut manager, and the `active_shortcut` slot recorded
in `AppState`. -/
structure ShortcutState where
  osRegistered : List String
  active : Option String
deriving Repr, DecidableEq

/-- Rust `str::trim`: the string with leading and trailing whitespace
removed. -/
def rustTrim (s : String) : String :=
  ⟨((s.data.dropWhile Char.isWhitespace).reverse.dropWhile
      Char.isWhitespace).reverse⟩

/-- `register_global_shortcut` command: trim the requested shortcut, reject it
if empty; if it equals the recorded active shortcut do nothing; otherwise
unregister the previous shortcut (ignoring failure, injected via `osUnregOk`),
then register the new one with the OS (failure injected via `osRegOk`) and
record it only when that registration succeeded. -/
def register_global_shortcut (st : ShortcutState) (shortcut : String)
    (osRegOk osUnregOk : Bool) : Except String Unit × ShortcutState :=
  let normalized := rustTrim shortcut
  if normalized = "" then (Except.error "Shortcut cannot be empty", st)
  else
    let afterUnreg : ShortcutState :=
      match st.active with
      | some previous =>
        if osUnregOk then
          { st with osRegistered := st.osRegistered.filter (· ≠ previous) }
        else st
      | none => st
    match st.active with
    | some previous =>
      if previous = normalized then (Except.ok (), st)
      else
        if osRegOk then
          (Except.ok (),
           { osRegistered := normalized :: afterUnreg.osRegistered,
             active := some normalized })
        else (Except.error "Failed to register shortcut", afterUnreg)
    | none =>
      if osRegOk then
        (Except.ok (),
         { osRegistered := normalized :: st.osRegistered,
           active := some normalized })
      else (Except.error "Failed to register shortcut", st)

/-- `unregister_global_shortcut` command: if no shortcut is recorded, succeed
without touching anything; otherwise unregister it from the OS (failure
injected via `osUnregOk`) and clear the recorded slot only on success. -/
def unregister_global_shortcut (st : ShortcutState) (osUnregOk : Bool) :
    Except String Unit × ShortcutState :=
  match st.active with
  | none => (Except.ok (), st)
  | some existing =>
    if osUnregOk then
      (Except.ok (),
       { osRegistered := st.osRegistered.filter (· ≠ existing),
         active := none })
    else (Except.error "Failed to unregister shortcut", st)

/-- C5: at most one shortcut is recorded at a time — registering a different
shortcut first unregisters the previously active one from the OS, the new
trimmed shortcut is recorded only when OS registration succeeds (on failure
the recorded slot is unchanged), an empty-after-trim shortcut is rejected with
an error and no state change, and unregistration clears the recorded slot only
when the OS unregistration succeeds. -/
theorem register_single_active (st : ShortcutState) (shortcut : String)
    (osRegOk osUnregOk : Bool) :
    (rustTrim shortcut = "" →
      register_global_shortcut st shortcut osRegOk osUnregOk =
        (Except.error "Shortcut cannot be empty", st)) ∧
    (∀ prev, st.active = some prev → prev ≠ rustTrim shortcut →
      rustTrim shortcut ≠ "" → osUnregOk = true →
      prev ∉
        (register_global_shortcut st shortcut osRegOk
          osUnregOk).2.osRegistered) ∧
    (osRegOk = true → rustTrim shortcut ≠ "" → st.active ≠ some (rustTrim shortcut) →
      (register_global_shortcut st shortcut osRegOk osUnregOk).1 =
        Except.ok () ∧
      (register_global_shortcut st shortcut osRegOk osUnregOk).2.active =
        some (rustTrim shortcut) ∧
      rustTrim shortcut ∈
        (register_global_shortcut st shortcut osRegOk
          osUnregOk).2.osRegistered) ∧
    (osRegOk = false → rustTrim shortcut ≠ "" → st.active ≠ some (rustTrim shortcut) →
      (register_global_shortcut st shortcut osRegOk osUnregOk).1 =
        Except.error "Failed to register shortcut" ∧
      (register_global_shortcut st shortcut osRegOk osUnregOk).2.active =
        st.active) ∧
    (∀ e, st.active = some e → osUnregOk = true →
      unregister_global_shortcut st osUnregOk =
        (Except.ok (),
         { osRegistered := st.osRegistered.filter (· ≠ e),
           active := none })) ∧
    (∀ e, st.active = some e → osUnregOk = false →
      unregister_global_shortcut st osUnregOk =
        (Except.error "Failed to unregister shortcut", st)) := by
  refine ⟨?_, ?_, ?_, ?_, ?_, ?_⟩
  · intro h
    simp [register_global_shortcut, h]
  · intro prev hact hne hne' hunreg
    subst hunreg
    cases osRegOk <;>
      simp [register_global_shortcut, hne', hact, Ne.symm hne, hne,
        List.mem_filter]
  · intro hreg hne hact'
    subst hreg
    cases hact : st.active with
    | none => simp [register_global_shortcut, hne, hact]
    | some prev =>
      have hpne : prev ≠ rustTrim shortcut := by
        intro he
        exact hact' (by rw [hact, he])
      simp [register_global_shortcut, hne, hact, hpne]
  · intro hreg hne hact'
    subst hreg
    cases hact : st.active with
    | none => simp [register_global_shortcut, hne, hact]
    | some prev =>
      have hpne : prev ≠ rustTrim shortcut := by
        intro he
        exact hact' (by rw [hact, he])
      cases osUnregOk <;>
        simp [register_global_shortcut, hne, hact, hpne]
  · intro e hact hok
    subst hok
    simp [unregister_global_shortcut, hact]
  · intro e hact hok
    subst hok
    simp [unregister_global_shortcut, hact]

/-- A concrete state with one active shortcut, for instantiating C5 and C9. -/
def stActive : ShortcutState :=
  { osRegistered := ["F2"], active := some "F2" }

/-- Witness for C5: registering a different shortcut over a concrete active
one removes the previous shortcut from the OS-registered set. -/
theorem register_single_active_witness :
    "F2" ∉ (register_global_shortcut stActive "F3" true true).2.osRegistered :=
  (register_single_active stActive "F3" true true).2.1 "F2" rfl (by decide)
    (by decide) rfl

/-- C9: registering a shortcut that trims to the currently active one returns
`Ok` and changes nothing, and unregistering with no active shortcut returns
`Ok` and changes nothing. -/
theorem register_unregister_idempotent (st : ShortcutState)
    (shortcut : String) (osRegOk osUnregOk : Bool) :
    (st.active = some (rustTrim shortcut) → rustTrim shortcut ≠ "" →
      register_global_shortcut st shortcut osRegOk osUnregOk =
        (Except.ok (), st)) ∧
    (st.active = none →
      unregister_global_shortcut st osUnregOk = (Except.ok (), st)) := by
  constructor
  · intro hact hne
    simp [register_global_shortcut, hne, hact]
  · intro hact
    simp [unregister_global_shortcut, hact]

/-- Witness for C9: re-registering the active shortcut of a concrete state is
a no-op, and unregistering with nothing active is a no-op. -/
theorem register_unregister_idempotent_witness :
    register_global_shortcut stActive "F2" true true =
      (Except.ok (), stActive) ∧
    unregister_global_shortcut { osRegistered := [], active := none } true =
      (Except.ok (), { osRegistered := [], active := none }) :=
  ⟨(register_unregister_idempotent stActive "F2" true true).1 (by decide)
      (by decide),
   (register_unregister_idempotent { osRegistered := [], active := none }
      "F2" true true).2 rfl⟩

/-- `capture_selected_text`: the clipboard's text content is modelled as
`Option String` (`none` when the clipboard holds no text, so `get_text`
fails and `unwrap_or_default` yields `""`); `copied` is the text the
foreground application writes in response to the simulated Ctrl+C (`none`
when it writes nothing, leaving the cleared clipboard in place).  Returns
(captured text, final clipboard text content). -/
def capture_selected_text (initOk : Bool) (clip : Option String)
    (copied : Option String) : String × Option String :=
  if initOk then
    let previous := clip.getD ""
    let afterCopy : Option String :=
      match copied with
      | some t => some t
      | none => some ""
    (afterCopy.getD "", some previous)
  else ("", clip)

/-- Counterexample to C8 as stated: when the clipboard initially holds no
text, the call leaves it holding the empty string, not its original
contents. -/
theorem capture_selected_text_alters_textless_clipboard :
    (capture_selected_text true none (some "hello")).2 ≠ none := by
  decide

/-- C8 (amended): `capture_selected_text` is total — it returns `""` and
leaves the clipboard alone when clipboard initialization fails; otherwise it
returns what the foreground application copied (or `""`), and restores the
clipboard's previous text content, `""` standing in for a clipboard that held
no text; a clipboard that did hold text is left exactly as it was. -/
theorem capture_selected_text_restores_text (initOk : Bool)
    (clip copied : Option String) :
    (initOk = false → capture_selected_text initOk clip copied = ("", clip)) ∧
    (initOk = true →
      (capture_selected_text initOk clip copied).1 = copied.getD "" ∧
      (capture_selected_text initOk clip copied).2 = some (clip.getD "")) ∧
    (∀ s, clip = some s → initOk = true →
      (capture_selected_text initOk clip copied).2 = clip) := by
  refine ⟨?_, ?_, ?_⟩
  · intro h
    subst h
    rfl
  · intro h
    subst h
    cases copied <;> exact ⟨rfl, rfl⟩
  · intro s hs h
    subst h
    subst hs
    rfl

/-- Witness for C8 (amended): capturing over a clipboard that held text
restores it. -/
theorem capture_selected_text_restores_text_witness :
    (capture_selected_text true (some "prev") (some "sel")).2 =
      some "prev" :=
  (capture_selected_text_restores_text true (some "prev") (some "sel")).2.2
    "prev" rfl rfl

/-- Counterexample to C6 as stated: the shared `AppState` does not consist of
a single mutex-protected value. -/
theorem appState_not_single_mutex_value :
    ¬ appStateMutexProtectedFields.length = 1 := by
  decide

/-- C6 (amended): the program's shared state consists of exactly two
mutex-protected values — the execution-log list and the active shortcut. -/
theorem appState_two_mutex_values :
    appStateMutexProtectedFields.length = 2 ∧
    "logs" ∈ appStateMutexProtectedFields ∧
    "active_shortcut" ∈ appStateMutexProtectedFields := by
  decide

/-- Return type of a Tauri command: `Result<T, String>`, or the plain
`PermissionStatus` struct (no error channel). -/
inductive CommandReturn where
  | resultString
  | permissionStatus
deriving Repr, DecidableEq

/-- The commands exposed through `invoke_handler`, paired with their return
types, transcribed from the source signatures. -/
def exposedCommands : List (String × CommandReturn) :=
  [("check_windows_permissions", CommandReturn.permissionStatus),
   ("register_global_shortcut", CommandReturn.resultString),
   ("unregister_global_shortcut", CommandReturn.resultString),
   ("paste_text", CommandReturn.resultString),
   ("hide_window", CommandReturn.resultString),
   ("load_setup", CommandReturn.resultString),
   ("save_setup", CommandReturn.resultString),
   ("load_execution_logs", CommandReturn.resultString),
   ("append_execution_log", CommandReturn.resultString)]

/-- Counterexample to C7 as stated: not every exposed command returns
`Result<_, String>` — `check_windows_permissions` returns the plain
`PermissionStatus` struct. -/
theorem not_every_command_returns_result :
    ¬ ∀ c ∈ exposedCommands, c.2 = CommandReturn.resultString := by
  decide

/-- C7 (amended): every exposed command other than
`check_windows_permissions` returns `Result<_, String>`;
`check_windows_permissions` is infallible, reporting OS-probe failures as
booleans instead. -/
theorem commands_return_string_errors :
    ∀ c ∈ exposedCommands, c.1 ≠ "check_windows_permissions" →
      c.2 = CommandReturn.resultString := by
  decide

/-- Witness for C7 (amended) at the `paste_text` command. -/
theorem commands_return_string_errors_witness :
    (("paste_text", CommandReturn.resultString)).2 =
      CommandReturn.resultString :=
  commands_return_string_errors ("paste_text", CommandReturn.resultString)
    (by decide) (by decide)

/-- C10: `read_json` yields `Ok(None)` for a missing file, `Ok(Some v)` for a
parseable one, and a string error exactly for an existing file that is
unreadable or unparseable; consequently `load_setup` on a missing setup file
returns `Ok(None)`. -/
theorem read_json_missing_gives_none {α : Type} (vault : Option String)
    (saveOk writeOk loadOk : Bool) :
    (load_setup FsFile.missing vault saveOk writeOk loadOk).1 =
      Except.ok none ∧
    read_json (FsFile.missing : FsFile α) = Except.ok none ∧
    (∀ v : α, read_json (FsFile.good v) = Except.ok (some v)) ∧
    (∃ e, read_json (FsFile.unreadable : FsFile α) = Except.error e) ∧
    (∃ e, read_json (FsFile.malformed : FsFile α) = Except.error e) := by
  exact ⟨rfl, rfl, fun v => rfl, ⟨_, rfl⟩, ⟨_, rfl⟩⟩

end ShortcutAI
